import Mathlib

/-
  Verification development for the Discord verification bot.

  The repository ships three variants of the bot core in one source file:
  * a single-file variant backed by a local JSON store (namespace `Bot` below),
  * a v3.0 variant backed by PostgreSQL (namespace `V3`),
  * a v2.6 variant backed by PostgreSQL with a revocation scheduler
    (namespace `V26`).

  Each namespace is a shallow embedding of the corresponding code: handlers
  become pure functions from the incoming event, the current store contents
  and an explicit model of the external Roblox API to the resulting store,
  the reply sent to the user and the list of external calls performed.
-/

/-- JavaScript `toLowerCase` on the ASCII range the code compares
(character-wise lowering). -/
def jsToLower (s : String) : String := ⟨s.data.map Char.toLower⟩

/-- JavaScript `startsWith`. -/
def strStartsWith (s p : String) : Bool := p.data.isPrefixOf s.data

/-- The whitespace class JavaScript `trim` strips. -/
def isJsSpace (c : Char) : Bool := c.isWhitespace

/-- JavaScript `trim`: strip whitespace from both ends. -/
def jsTrim (s : String) : String :=
  ⟨((s.data.dropWhile isJsSpace).reverse.dropWhile isJsSpace).reverse⟩

/-- Emptiness of a JavaScript string. -/
def strIsEmpty (s : String) : Bool := s.data.isEmpty

namespace Bot

/-- Configuration constants of the single-file variant (index.cjs, section 1). -/
def ADMIN_ID_OR_USERNAME : String := "Kiff1132"

def ADMIN_PASSWORD : String := "💀SnoWMan(09558555464($_$)"

def ADMIN_NICKNAME : String := "NICE_1"

def GEMINI_CHANNEL_ID : String := "1428272974997229589"

def VERIFICATION_CHANNEL_ID : String := "1428362219955163268"

def AGREE_BUTTON_ID : String := "verify_agree"

def REGISTER_BUTTON_ID : String := "verify_register"

def USERNAME_MODAL_ID : String := "modal_username_submit"

/-- One record of the users.json store: the per-user object written by
`saveUserData` with default fields
`{ status: 0, robloxUsername: null, verificationKey: null, agreement: false, is_admin: false }`. -/
structure UserRec where
  status : Nat
  robloxUsername : Option String
  verificationKey : Option String
  agreement : Bool
  is_admin : Bool
deriving Repr, DecidableEq

/-- The default object used by `saveUserData` and the interaction handler when
no record exists for the user. -/
def defaultRec : UserRec :=
  { status := 0, robloxUsername := none, verificationKey := none,
    agreement := false, is_admin := false }

/-- The JSON store: an object keyed by Discord user id. -/
def Store := List (String × UserRec)

instance : DecidableEq Store := by
  unfold Store; infer_instance

/-- Lookup of `allData[userId]` (returns null when absent). -/
def lookupUser (s : Store) (uid : String) : Option UserRec :=
  List.lookup uid s

/-- Write `allData[userId] = rec` into the JSON object: replace the existing
key or add it. -/
def setUser : Store → String → UserRec → Store
  | [], uid, r => [(uid, r)]
  | (k, v) :: t, uid, r =>
      if k = uid then (uid, r) :: t else (k, v) :: setUser t uid r

/-- `saveUserData(userId, newData)`: spread the existing record (or the
default one) and overwrite with the fields of `newData`, here represented by
the update function `f`. -/
def saveUserData (s : Store) (uid : String) (f : UserRec → UserRec) : Store :=
  setUser s uid (f ((lookupUser s uid).getD defaultRec))

/-- JavaScript string truthiness for the stored nullable string fields:
`null` and the empty string are falsy. -/
def strTruthy : Option String → Bool
  | none => false
  | some s => !(strIsEmpty s)

/-- Response of `POST usernames/users`: a thrown network/JSON error, a body
without a usable `data` array, or the `data` array of matched user ids. -/
inductive UsersApiResp where
  | netErr
  | malformed
  | ok (ids : List Nat)
deriving Repr, DecidableEq

/-- Response of `GET users/:id`: a thrown network/JSON error, a non-2xx
status, or a body whose `description` field may be absent. -/
inductive ProfileApiResp where
  | netErr
  | badStatus
  | ok (description : Option String)
deriving Repr, DecidableEq

/-- A model of the external Roblox API: what each endpoint returns for each
input during the handled event. -/
structure RobloxWorld where
  users : String → UsersApiResp
  profile : Nat → ProfileApiResp

/-- `getRobloxUserId(username)`: POST the username; on a thrown error the
catch returns `{id: null, exists: false}`; a missing or empty `data` array
also yields `exists: false`; otherwise the first match is returned. -/
def getRobloxUserId (w : RobloxWorld) (username : String) : Option Nat × Bool :=
  match w.users username with
  | .ok (id :: _) => (some id, true)
  | _ => (none, false)

/-- `checkRobloxUserExists(username)` projects the `exists` field. -/
def checkRobloxUserExists (w : RobloxWorld) (username : String) : Bool :=
  (getRobloxUserId w username).2

/-- `checkRobloxProfileKey(username, key)`: resolve the id (false when it does
not exist), fetch the profile (false on a thrown error or a non-2xx status or
a missing `description`, whose `.trim()` would throw into the catch), and
compare the trimmed description for exact equality with the key. -/
def checkRobloxProfileKey (w : RobloxWorld) (username key : String) : Bool :=
  match getRobloxUserId w username with
  | (some userId, true) =>
      match w.profile userId with
      | .ok (some description) => jsTrim description == key
      | _ => false
  | _ => false

/-- External calls performed by a handler, in order. -/
inductive ExtCall where
  | resolveUsername (u : String)
  | fetchProfile (id : Nat)
deriving Repr, DecidableEq

/-- The calls `checkRobloxProfileKey` performs: the username resolution, then
the profile fetch when the id resolved. -/
def profileKeyCalls (w : RobloxWorld) (username : String) : List ExtCall :=
  match getRobloxUserId w username with
  | (some userId, true) => [.resolveUsername username, .fetchProfile userId]
  | _ => [.resolveUsername username]

/-- An incoming component interaction: a button click in some channel, or a
modal submission carrying the two text inputs. -/
inductive UIEvent where
  | button (channelId customId : String)
  | modalSubmit (customId rawUsername rawPassword : String)
deriving Repr, DecidableEq

/-- The `interaction.customId` field. -/
def UIEvent.cid : UIEvent → String
  | .button _ c => c
  | .modalSubmit c _ _ => c

/-- The ephemeral reply the handler sends back. -/
inductive Reply where
  | noReply
  | alreadyRegistered
  | showUsernameModal
  | notStarted
  | verifyComplete (username : String)
  | proofMismatch (username key : String)
  | adminBypassSuccess
  | identityNotFound (username : String)
  | keyIssued (username key : String)
deriving Repr, DecidableEq

/-- Everything a single run of the component handler produces: the store
after its writes, the reply, the external calls made, the nickname set on the
member (when any) and the channel message presenting the challenge key. -/
structure HandlerResult where
  store : Store
  reply : Reply
  calls : List ExtCall
  nickname : Option String
  channelMsg : Option (String × String)
deriving DecidableEq

/-- A run that leaves the store, the nickname and the channel untouched. -/
def noEffect (s : Store) (r : Reply) (cs : List ExtCall) : HandlerResult :=
  ⟨s, r, cs, none, none⟩

/-- The component interaction handler of the single-file variant
(index.cjs, section 9).  `freshKey` stands for the value
`generateVerificationKey()` returns during this run (a 12-character
alphanumeric string drawn at random); `manageable` is
`member && member.manageable`. -/
def handleInteraction (w : RobloxWorld) (freshKey : String) (manageable : Bool)
    (s : Store) (uid : String) (ev : UIEvent) : HandlerResult :=
  let userData := (lookupUser s uid).getD defaultRec
  if userData.status == 1 && strStartsWith ev.cid "verify_" then
    noEffect s .alreadyRegistered []
  else
    match ev with
    | .button channelId customId =>
      if channelId != VERIFICATION_CHANNEL_ID then noEffect s .noReply []
      else if customId == AGREE_BUTTON_ID then noEffect s .showUsernameModal []
      else if customId == REGISTER_BUTTON_ID then
        if !(strTruthy userData.robloxUsername) || !(strTruthy userData.verificationKey) then
          noEffect s .notStarted []
        else
          let targetUsername := userData.robloxUsername.getD ""
          let currentKey := userData.verificationKey.getD ""
          if checkRobloxProfileKey w targetUsername currentKey then
            { store := saveUserData s uid (fun old => { old with status := 1, agreement := true }),
              reply := .verifyComplete targetUsername,
              calls := profileKeyCalls w targetUsername,
              nickname := if manageable then some targetUsername else none,
              channelMsg := none }
          else
            noEffect s (.proofMismatch targetUsername currentKey) (profileKeyCalls w targetUsername)
      else noEffect s .noReply []
    | .modalSubmit customId rawUsername rawPassword =>
      if customId != USERNAME_MODAL_ID then noEffect s .noReply []
      else
        let robloxUsername := jsTrim rawUsername
        let inputPassword := rawPassword
        if jsToLower robloxUsername == jsToLower ADMIN_ID_OR_USERNAME
            && inputPassword == ADMIN_PASSWORD then
          { store := saveUserData s uid (fun old =>
              { old with
                  status := 1, robloxUsername := some ADMIN_ID_OR_USERNAME,
                  is_admin := true, agreement := true }),
            reply := .adminBypassSuccess,
            calls := [],
            nickname := if manageable then some ADMIN_NICKNAME else none,
            channelMsg := none }
        else if !(checkRobloxUserExists w robloxUsername) then
          noEffect s (.identityNotFound robloxUsername) [.resolveUsername robloxUsername]
        else
          { store := saveUserData s uid (fun old =>
              { old with
                  status := 0, robloxUsername := some robloxUsername,
                  verificationKey := some freshKey, is_admin := false, agreement := true }),
            reply := .keyIssued robloxUsername freshKey,
            calls := [.resolveUsername robloxUsername],
            nickname := none,
            channelMsg := some (robloxUsername, freshKey) }

/-- State of the users.json file on disk: absent, unreadable or unparsable,
or holding a parsed object. -/
inductive FileState where
  | missing
  | corrupt
  | good (s : Store)
deriving DecidableEq

/-- `readAllUserData()`: parse the file, returning the empty object when the
read or the parse throws. -/
def readAllUserData : FileState → Store
  | .good s => s
  | _ => []

/-- `getUserData(userId)`: `allData[userId] || null`. -/
def getUserData (f : FileState) (uid : String) : Option UserRec :=
  lookupUser (readAllUserData f) uid

/-- `saveUserData(userId, newData)` at the file level: read all data (empty
on failure), merge the one record, write the whole object back. -/
def saveUserDataFile (f : FileState) (uid : String) (upd : UserRec → UserRec) : FileState :=
  .good (saveUserData (readAllUserData f) uid upd)

/-- What the messageCreate handler does with an incoming message. -/
inductive MsgOutcome where
  | ignored
  | leftAlone
  | deletedRestriction
  | geminiAnswered (robloxUsername : String)
deriving Repr, DecidableEq

/-- The messageCreate handler (index.cjs, section 10): restriction plus the
Gemini channel flow, deciding from the stored verification status whether the
message is deleted. `displayName` is `member.displayName`. -/
def handleMessage (f : FileState) (authorIsBot inGuild : Bool)
    (channelId uid content displayName : String) : MsgOutcome :=
  if !inGuild || authorIsBot then .ignored
  else
    let userData := getUserData f uid
    let isRegistered := (userData.map (·.status == 1)).getD false
    let isExemptChannel :=
      channelId == VERIFICATION_CHANNEL_ID || channelId == GEMINI_CHANNEL_ID
    if channelId == GEMINI_CHANNEL_ID then
      let prompt := jsTrim content
      if strStartsWith prompt "/" || strIsEmpty prompt then .leftAlone
      else if !isRegistered then .deletedRestriction
      else
        .geminiAnswered (((userData.getD defaultRec).robloxUsername).getD displayName)
    else if isExemptChannel || isRegistered then .leftAlone
    else .deletedRestriction

/-- One processed component interaction, together with the environment it ran
against: the external API during the run, the key the generator produced, and
whether the member object was manageable. -/
inductive Event where
  | interact (w : RobloxWorld) (freshKey : String) (manageable : Bool)
      (uid : String) (ev : UIEvent)

/-- The store after a sequence of interactions has been handled, starting
from `s` (the file is created holding the empty JSON object). -/
def runEvents : Store → List Event → Store
  | s, [] => s
  | s, .interact w k m uid e :: rest =>
      runEvents (handleInteraction w k m s uid e).store rest

/-- Invariant: every stored record with `status = 1` (Verified) carries a
non-null `robloxUsername`. -/
def VerifiedHasUsername (s : Store) : Prop :=
  ∀ uid r, lookupUser s uid = some r → r.status = 1 → r.robloxUsername ≠ none

/-- Example world: the external service is unreachable, every call throws. -/
def wDown : RobloxWorld := ⟨fun _ => .netErr, fun _ => .netErr⟩

/-- Example world: `alice` resolves to id 5, whose profile description trims
to `NEWP12345678`; other usernames return an empty match array, other
profiles a non-2xx status. -/
def wAlice : RobloxWorld :=
  ⟨fun u => if u = "alice" then .ok [5] else .ok [],
   fun i => if i = 5 then .ok (some " NEWP12345678 ") else .badStatus⟩

/-- Example store: user u1 is pending proof for `alice` with a stored key. -/
def exStorePending : Store :=
  [("u1", ⟨0, some "alice", some "OLDKEY123456", true, false⟩)]

/-- Example store: user u2 is already Verified as `alice`. -/
def exStoreVerified : Store :=
  [("u2", ⟨1, some "alice", some "OLDKEY123456", true, false⟩)]

end Bot

namespace V3

/-- Outcome of the v3.0 startup sequence `ensureDbSchema().then(login)`. -/
structure BootResult where
  loginAttempted : Bool
  terminated : Bool
deriving Repr, DecidableEq

/-- v3.0 startup (index.cjs, v3.0 section): when `DATABASE_URL` is unset,
`ensureDbSchema` returns at its `if (!pool)` guard and the `.then` callback
logs in.  When the CREATE TABLE query throws, the catch logs the error and
then runs `pool = null` — but `pool` is declared `const`, so that assignment
itself throws a TypeError, the promise returned by `ensureDbSchema`
rejects, the `.then(() => client.login(...))` callback never runs, and the
process dies on the unhandled rejection (fatal on the Node versions
discord.js v14 requires). -/
def boot (hasDbUrl schemaFails : Bool) : BootResult :=
  if hasDbUrl && schemaFails then
    { loginAttempted := false, terminated := true }
  else
    { loginAttempted := true, terminated := false }

end V3

namespace V26

/-- Outcome of the v2.6 startup sequence `ensureDbSchema().then(login)`. -/
structure BootResult where
  loginAttempted : Bool
  exited : Option Nat
deriving Repr, DecidableEq

/-- v2.6 startup (index.cjs, v2.6 section): a failing CREATE TABLE query is
caught, logged as CRITICAL and followed by `process.exit(1)`, so the `.then`
callback never logs in; otherwise the bot proceeds to `client.login`. -/
def boot (schemaFails : Bool) : BootResult :=
  if schemaFails then { loginAttempted := false, exited := some 1 }
  else { loginAttempted := true, exited := none }

/-- One row of the v2.6 `users` table. -/
structure DbUser where
  discord_id : String
  roblox_id : Nat
  roblox_username : String
  is_group_member : Bool
deriving Repr, DecidableEq

/-- The `users` table contents. -/
abbrev Db := List DbUser

/-- `checkRobloxMembership`: the simulated group check — even Roblox ids are
members, odd ids are not. -/
def checkRobloxMembership (robloxId : Nat) : Bool := robloxId % 2 == 0

/-- The username the simulated check reports for an id. -/
def simulatedUsername (robloxId : Nat) : String :=
  if checkRobloxMembership robloxId then "VerifiedUser_" ++ toString robloxId
  else "UnverifiedGuest_" ++ toString robloxId

/-- `DAL.getAllVerified`: `SELECT "discord_id", "roblox_id" FROM users WHERE
"is_group_member" = TRUE` — the rows whose flag is true (the job reads only
those two columns of each row). -/
def getAllVerified (db : Db) : List DbUser :=
  db.filter (·.is_group_member)

/-- The row change the revocation UPDATE applies: flag set to FALSE. -/
def flipMember (u : DbUser) : DbUser :=
  { u with is_group_member := false }

/-- `UPDATE users SET "is_group_member" = FALSE WHERE "discord_id" = $1`. -/
def markNotMember (db : Db) (target : String) : Db :=
  db.map (fun u => if u.discord_id = target then flipMember u else u)

/-- `DAL.save`: `INSERT ... ON CONFLICT ("discord_id") DO UPDATE` — replace
the row with that primary key or add a new one. -/
def dalSave : Db → DbUser → Db
  | [], r => [r]
  | u :: t, r =>
      if u.discord_id = r.discord_id then r :: t else u :: dalSave t r

/-- Discord-side effects the revocation job performs on a user. -/
inductive RoleAction where
  | removeMemberRole (discordId : String)
  | addUnverifiedRole (discordId : String)
  | dmRevoked (discordId : String)
deriving Repr, DecidableEq

/-- The Discord user a role action targets. -/
def RoleAction.target : RoleAction → String
  | .removeMemberRole d => d
  | .addUnverifiedRole d => d
  | .dmRevoked d => d

/-- Per revoked user: when the guild member resolves, remove the member role,
add the unverified role and DM the user; otherwise only the store is
updated. -/
def revokeActions (guildHas : String → Bool) (u : DbUser) : List RoleAction :=
  if guildHas u.discord_id then
    [.removeMemberRole u.discord_id, .addUnverifiedRole u.discord_id,
     .dmRevoked u.discord_id]
  else []

/-- One run of the periodic `checkJob` (startStatusScheduler): load the rows
with `is_group_member = TRUE`, check each sequentially, collect those whose
check fails into `usersToRevoke`, then for each revoked user perform the role
actions (when the member resolves) and run the UPDATE setting the flag to
FALSE. Returns the table after the run and the role actions performed. -/
def checkJob (guildHas : String → Bool) (db : Db) : Db × List RoleAction :=
  let users := getAllVerified db
  let usersToRevoke := users.filter (fun u => !checkRobloxMembership u.roblox_id)
  let newDb := usersToRevoke.foldl (fun d u => markNotMember d u.discord_id) db
  let actions := usersToRevoke.flatMap (revokeActions guildHas)
  (newDb, actions)

/-- Reply of the v2.6 `verificationModal` submission handler. -/
inductive ModalReply where
  | sessionExpired
  | invalidId
  | verifiedOk (username : String)
  | notMember (username : String)
deriving Repr, DecidableEq

/-- External identity-provider calls made by the modal handler. -/
inductive ModalCall where
  | membershipCheck (robloxId : Nat)
deriving Repr, DecidableEq

/-- Everything one run of the v2.6 modal handler produces. -/
structure ModalResult where
  reply : ModalReply
  calls : List ModalCall
  db : Db
  pendingAfter : Bool
deriving DecidableEq

/-- JavaScript `/^\d+$/` on the trimmed input. -/
def isDigitString (s : String) : Bool :=
  !(strIsEmpty s) && s.data.all Char.isDigit

/-- `parseInt` on a digit-only string. -/
def parseDigits (s : String) : Nat :=
  s.data.foldl (fun n c => n * 10 + (c.toNat - 48)) 0

/-- The v2.6 `verificationModal` submission handler: reject with the
session-expired reply when `PENDING_VERIFICATIONS` has no entry for the user
(before deferring and before any external call); validate the id; then run
the membership check and save/reply accordingly. `pending` is whether
`PENDING_VERIFICATIONS.has(discordId)`. -/
def handleVerificationModal (pending : Bool) (discordId rawInput : String)
    (db : Db) : ModalResult :=
  if !pending then ⟨.sessionExpired, [], db, false⟩
  else
    let robloxId := jsTrim rawInput
    if !isDigitString robloxId then ⟨.invalidId, [], db, false⟩
    else
      let n := parseDigits robloxId
      let isMember := checkRobloxMembership n
      if isMember then
        ⟨.verifiedOk (simulatedUsername n), [.membershipCheck n],
         dalSave db ⟨discordId, n, simulatedUsername n, true⟩, false⟩
      else
        ⟨.notMember (simulatedUsername n), [.membershipCheck n], db, false⟩

/-- Example table: two group members (ids 2 even, 3 odd) and one
non-member row. -/
def dbEx : Db :=
  [⟨"d1", 2, "VerifiedUser_2", true⟩,
   ⟨"d2", 3, "VerifiedUser_3", true⟩,
   ⟨"d3", 6, "VerifiedUser_6", false⟩]

end V26

namespace Bot

theorem lookupUser_setUser_self (s : Store) (uid : String) (r : UserRec) :
    lookupUser (setUser s uid r) uid = some r := by
  induction s with
  | nil => simp [setUser, lookupUser, List.lookup]
  | cons kv t ih =>
    obtain ⟨k, v⟩ := kv
    by_cases h : k = uid
    · subst h
      simp [setUser, lookupUser, List.lookup]
    · have hb : (uid == k) = false := by
        simp [Ne.symm h]
      simpa [setUser, h, lookupUser, List.lookup, hb] using ih

theorem lookupUser_setUser_ne (s : Store) (uid uid' : String) (r : UserRec)
    (h : uid' ≠ uid) :
    lookupUser (setUser s uid r) uid' = lookupUser s uid' := by
  induction s with
  | nil =>
    have hb : (uid' == uid) = false := by simp [h]
    simp [setUser, lookupUser, List.lookup, hb]
  | cons kv t ih =>
    obtain ⟨k, v⟩ := kv
    by_cases hk : k = uid
    · subst hk
      have hb : (uid' == k) = false := by simp [h]
      simp [setUser, lookupUser, List.lookup, hb]
    · simp only [setUser, if_neg hk, lookupUser, List.lookup]
      cases hkk : (uid' == k) with
      | true => simp
      | false => simpa [lookupUser] using ih

theorem strTruthy_ne_none (o : Option String) (h : strTruthy o = true) :
    o ≠ none := by
  cases o with
  | none => simp [strTruthy] at h
  | some s => simp

theorem inv_setUser (s : Store) (uid : String) (r : UserRec)
    (hs : VerifiedHasUsername s)
    (hr : r.status = 1 → r.robloxUsername ≠ none) :
    VerifiedHasUsername (setUser s uid r) := by
  intro u' r' hl h1
  by_cases h : u' = uid
  · subst h
    rw [lookupUser_setUser_self] at hl
    cases hl
    exact hr h1
  · rw [lookupUser_setUser_ne _ _ _ _ h] at hl
    exact hs u' r' hl h1

theorem handleInteraction_inv (w : RobloxWorld) (k : String) (m : Bool)
    (uid : String) (e : UIEvent) (s : Store)
    (hs : VerifiedHasUsername s) :
    VerifiedHasUsername (handleInteraction w k m s uid e).store := by
  cases e with
  | button ch cid =>
    simp only [handleInteraction, UIEvent.cid]
    split
    · exact hs
    · split
      · exact hs
      · split
        · exact hs
        · split
          · split
            · exact hs
            · split
              · apply inv_setUser _ _ _ hs
                intro _
                rename_i htr hchk ha
                cases hb : strTruthy ((lookupUser s uid).getD defaultRec).robloxUsername with
                | false => exact absurd (by simp [hb]) htr
                | true => exact strTruthy_ne_none _ hb
              · exact hs
          · exact hs
  | modalSubmit cid rawU rawP =>
    simp only [handleInteraction, UIEvent.cid]
    split
    · exact hs
    · split
      · exact hs
      · split
        · apply inv_setUser _ _ _ hs
          intro _
          simp
        · split
          · exact hs
          · apply inv_setUser _ _ _ hs
            intro _
            simp

theorem runEvents_inv (evs : List Event) :
    ∀ s : Store, VerifiedHasUsername s → VerifiedHasUsername (runEvents s evs) := by
  induction evs with
  | nil => intro s hs; exact hs
  | cons e rest ih =>
    intro s hs
    cases e with
    | interact w k m uid ev =>
      exact ih _ (handleInteraction_inv w k m uid ev s hs)

/-- C7: in every store reachable from the empty file through the component
handler, a record with status 1 (Verified) has a non-null robloxUsername:
the proof path only sets status 1 behind the truthy-username guard, the
admin bypass writes the admin username, and no operation clears the username
while verifying. -/
theorem verified_record_has_username (evs : List Event) :
    VerifiedHasUsername (runEvents [] evs) := by
  apply runEvents_inv
  intro uid r hl h1
  simp [lookupUser, List.lookup] at hl

/-- Witness for C7: the invariant evaluated on the store left by a concrete
admin-bypass interaction. -/
theorem verified_record_has_username_witness :
    VerifiedHasUsername (runEvents []
      [.interact wDown "FRESHKEY0001" true "u9"
        (.modalSubmit USERNAME_MODAL_ID "kiff1132" ADMIN_PASSWORD)]) :=
  verified_record_has_username _

end Bot

namespace Bot

/-- C2: an identity-claim submission whose trimmed username equals the admin
identifier case-insensitively and whose secret equals the admin password
exactly writes a record with status 1 (Verified) and is_admin true, sets the
admin nickname when the member is manageable, replies success, and performs
no external identity-provider call — for every external-service state. -/
theorem admin_bypass_immediate_verified
    (w : RobloxWorld) (freshKey : String) (manageable : Bool)
    (s : Store) (uid rawU rawP : String)
    (hu : jsToLower (jsTrim rawU) = jsToLower ADMIN_ID_OR_USERNAME)
    (hp : rawP = ADMIN_PASSWORD) :
    (handleInteraction w freshKey manageable s uid
        (.modalSubmit USERNAME_MODAL_ID rawU rawP)).reply = .adminBypassSuccess ∧
    (handleInteraction w freshKey manageable s uid
        (.modalSubmit USERNAME_MODAL_ID rawU rawP)).calls = [] ∧
    lookupUser (handleInteraction w freshKey manageable s uid
        (.modalSubmit USERNAME_MODAL_ID rawU rawP)).store uid
      = some { (lookupUser s uid).getD defaultRec with
                 status := 1, robloxUsername := some ADMIN_ID_OR_USERNAME,
                 is_admin := true, agreement := true } ∧
    (manageable = true →
      (handleInteraction w freshKey manageable s uid
          (.modalSubmit USERNAME_MODAL_ID rawU rawP)).nickname = some ADMIN_NICKNAME) := by
  subst hp
  have hsw : (strStartsWith USERNAME_MODAL_ID "verify_") = false := by decide
  have hbne : (USERNAME_MODAL_ID != USERNAME_MODAL_ID) = false := by decide
  have hcond : (jsToLower (jsTrim rawU) == jsToLower ADMIN_ID_OR_USERNAME
      && (ADMIN_PASSWORD == ADMIN_PASSWORD)) = true := by
    simp [hu]
  simp only [handleInteraction, UIEvent.cid, hsw, Bool.and_false, hbne, hcond,
    Bool.false_eq_true, if_false, ite_false, saveUserData]
  refine ⟨rfl, rfl, ?_, ?_⟩
  · exact lookupUser_setUser_self s uid _
  · intro hm
    simp [hm]

/-- Witness for C2: the concrete admin submission while the external service
is down, checked against the theorem. -/
theorem admin_bypass_immediate_verified_witness :
    jsToLower (jsTrim " KIFF1132 ") = jsToLower ADMIN_ID_OR_USERNAME ∧
    (handleInteraction wDown "FRESHKEY0002" true [] "u9"
        (.modalSubmit USERNAME_MODAL_ID " KIFF1132 " ADMIN_PASSWORD)).calls = [] ∧
    (handleInteraction wDown "FRESHKEY0002" true [] "u9"
        (.modalSubmit USERNAME_MODAL_ID " KIFF1132 " ADMIN_PASSWORD)).reply
      = .adminBypassSuccess :=
  ⟨by decide,
   (admin_bypass_immediate_verified wDown "FRESHKEY0002" true [] "u9"
      " KIFF1132 " ADMIN_PASSWORD (by decide) rfl).2.1,
   (admin_bypass_immediate_verified wDown "FRESHKEY0002" true [] "u9"
      " KIFF1132 " ADMIN_PASSWORD (by decide) rfl).1⟩

end Bot

namespace Bot

/-- C4: a Register click by a pending user whose stored key does not match
the trimmed external profile text (here: every input on which
checkRobloxProfileKey is false) gets the proof-mismatch failure reply and
leaves the stored record — status, username and key — untouched, so the same
key can be resubmitted. -/
theorem proof_mismatch_keeps_state
    (w : RobloxWorld) (freshKey : String) (manageable : Bool)
    (s : Store) (uid u kk : String) (rec : UserRec)
    (hrec : lookupUser s uid = some rec)
    (hst : rec.status = 0)
    (hu : rec.robloxUsername = some u) (hune : strIsEmpty u = false)
    (hk : rec.verificationKey = some kk) (hkne : strIsEmpty kk = false)
    (hchk : checkRobloxProfileKey w u kk = false) :
    handleInteraction w freshKey manageable s uid
        (.button VERIFICATION_CHANNEL_ID REGISTER_BUTTON_ID)
      = noEffect s (.proofMismatch u kk) (profileKeyCalls w u) := by
  have hch : (VERIFICATION_CHANNEL_ID != VERIFICATION_CHANNEL_ID) = false := by decide
  have hag : (REGISTER_BUTTON_ID == AGREE_BUTTON_ID) = false := by decide
  have hrr : (REGISTER_BUTTON_ID == REGISTER_BUTTON_ID) = true := by decide
  simp only [handleInteraction, UIEvent.cid, hrec, Option.getD_some, hst, hu, hk,
    hch, hag, hrr, strTruthy, hune, hkne, hchk, Bool.not_false, Bool.or_self,
    Bool.false_eq_true, if_false, ite_false, ite_true, Bool.and_true]
  simp [hchk]

/-- Witness for C4: user u1 pending with key OLDKEY123456 while the profile
of alice trims to NEWP12345678; the record survives unchanged. -/
theorem proof_mismatch_keeps_state_witness :
    checkRobloxProfileKey wAlice "alice" "OLDKEY123456" = false ∧
    handleInteraction wAlice "FRESHKEY0003" true exStorePending "u1"
        (.button VERIFICATION_CHANNEL_ID REGISTER_BUTTON_ID)
      = noEffect exStorePending (.proofMismatch "alice" "OLDKEY123456")
          (profileKeyCalls wAlice "alice") :=
  ⟨by decide,
   proof_mismatch_keeps_state wAlice "FRESHKEY0003" true exStorePending "u1"
     "alice" "OLDKEY123456" ⟨0, some "alice", some "OLDKEY123456", true, false⟩
     (by decide) (by decide) (by decide) (by decide)
     (by decide) (by decide) (by decide)⟩

end Bot

/-- C5: a proof submission with no matching pending session is rejected with
the session-expired / restart-from-the-beginning reply and no external
identity-provider call is made: the v2.6 PENDING_VERIFICATIONS guard replies
before any call, and the single-file Register click without a stored
username or key replies without calling the API. -/
theorem proof_submission_without_session_rejected :
    (∀ (discordId rawInput : String) (db : V26.Db),
        V26.handleVerificationModal false discordId rawInput db
          = ⟨.sessionExpired, [], db, false⟩) ∧
    (∀ (w : Bot.RobloxWorld) (freshKey : String) (manageable : Bool)
        (s : Bot.Store) (uid : String),
        ((Bot.lookupUser s uid).getD Bot.defaultRec).status ≠ 1 →
        (Bot.strTruthy ((Bot.lookupUser s uid).getD Bot.defaultRec).robloxUsername = false ∨
          Bot.strTruthy ((Bot.lookupUser s uid).getD Bot.defaultRec).verificationKey = false) →
        Bot.handleInteraction w freshKey manageable s uid
            (.button Bot.VERIFICATION_CHANNEL_ID Bot.REGISTER_BUTTON_ID)
          = Bot.noEffect s .notStarted []) := by
  constructor
  · intro d r db
    rfl
  · intro w fk m s uid hst hguard
    have hch : (Bot.VERIFICATION_CHANNEL_ID != Bot.VERIFICATION_CHANNEL_ID) = false := by
      decide
    have hag : (Bot.REGISTER_BUTTON_ID == Bot.AGREE_BUTTON_ID) = false := by decide
    have hsw : strStartsWith Bot.REGISTER_BUTTON_ID "verify_" = true := by decide
    have hst1 : (((Bot.lookupUser s uid).getD Bot.defaultRec).status == 1) = false := by
      simp [hst]
    rcases hguard with h | h <;>
      simp [Bot.handleInteraction, Bot.UIEvent.cid, hst1, hch, hag, hsw, h]

/-- Witness for C5: both rejection paths at concrete inputs — an absent
pending entry in the v2.6 variant, an empty store in the single-file one. -/
theorem proof_submission_without_session_rejected_witness :
    V26.handleVerificationModal false "d7" "12345" V26.dbEx
      = ⟨.sessionExpired, [], V26.dbEx, false⟩ ∧
    Bot.handleInteraction Bot.wDown "FRESHKEY0004" true [] "u7"
        (.button Bot.VERIFICATION_CHANNEL_ID Bot.REGISTER_BUTTON_ID)
      = Bot.noEffect [] .notStarted [] :=
  ⟨proof_submission_without_session_rejected.1 "d7" "12345" V26.dbEx,
   proof_submission_without_session_rejected.2 Bot.wDown "FRESHKEY0004" true [] "u7"
     (by decide) (Or.inl (by decide))⟩

namespace Bot

/-- C8: every failure of the external identity provider maps to a plain
return value: identity resolution yields exists = false on a thrown error,
a malformed body or an empty match array, and the profile-key check yields
false on those and on a profile fetch that throws, returns non-2xx or lacks
a description, as well as on a trimmed-text mismatch; both operations are
total functions of the world, never a propagated exception. -/
theorem external_failures_return_normally
    (w : RobloxWorld) (u kk : String) :
    ((w.users u = .netErr ∨ w.users u = .malformed ∨ w.users u = .ok []) →
        getRobloxUserId w u = (none, false) ∧ checkRobloxProfileKey w u kk = false) ∧
    (∀ id rest, w.users u = .ok (id :: rest) →
        (w.profile id = .netErr ∨ w.profile id = .badStatus ∨ w.profile id = .ok none) →
        checkRobloxProfileKey w u kk = false) ∧
    (∀ id rest d, w.users u = .ok (id :: rest) → w.profile id = .ok (some d) →
        jsTrim d ≠ kk → checkRobloxProfileKey w u kk = false) := by
  refine ⟨?_, ?_, ?_⟩
  · rintro (h | h | h) <;>
      simp [getRobloxUserId, checkRobloxProfileKey, h]
  · rintro id rest h (hp | hp | hp) <;>
      simp [checkRobloxProfileKey, getRobloxUserId, h, hp]
  · intro id rest d h hp hne
    simp [checkRobloxProfileKey, getRobloxUserId, h, hp, hne]

/-- Witness for C8: the unreachable-service world at a concrete username. -/
theorem external_failures_return_normally_witness :
    wDown.users "ghost404" = .netErr ∧
    getRobloxUserId wDown "ghost404" = (none, false) ∧
    checkRobloxProfileKey wDown "ghost404" "KEY" = false :=
  ⟨rfl,
   ((external_failures_return_normally wDown "ghost404" "KEY").1 (Or.inl rfl)).1,
   ((external_failures_return_normally wDown "ghost404" "KEY").1 (Or.inl rfl)).2⟩

/-- C1 is false on the code: a duplicate identity-claim submission while the
record is still pending (stored key OLDKEY123456) stores the freshly
generated NEWKEY654321 instead of the old key, and the re-displayed
challenge shows the new key. -/
theorem duplicate_claim_counterexample :
    ((lookupUser exStorePending "u1").map (fun r => r.verificationKey))
        = some (some "OLDKEY123456") ∧
    ¬ (((lookupUser (handleInteraction wAlice "NEWKEY654321" true exStorePending "u1"
            (.modalSubmit USERNAME_MODAL_ID "alice" "")).store "u1").map
          (fun r => r.verificationKey)) = some (some "OLDKEY123456")) ∧
    (handleInteraction wAlice "NEWKEY654321" true exStorePending "u1"
        (.modalSubmit USERNAME_MODAL_ID "alice" "")).channelMsg
      = some ("alice", "NEWKEY654321") :=
  ⟨by decide, by decide, by decide⟩

/-- C1 (amended): a duplicate identity-claim submission by a user already in
the pending-proof state does not reuse the stored proofToken: the handler
overwrites the stored verificationKey with the freshly generated key and the
re-displayed challenge shows that fresh key. -/
theorem duplicate_claim_regenerates_key
    (w : RobloxWorld) (freshKey : String) (manageable : Bool)
    (s : Store) (uid rawU rawP : String) (rec : UserRec)
    (hrec : lookupUser s uid = some rec)
    (hst : rec.status = 0)
    (hpu : strTruthy rec.robloxUsername = true)
    (hpk : strTruthy rec.verificationKey = true)
    (hnadmin : (jsToLower (jsTrim rawU) == jsToLower ADMIN_ID_OR_USERNAME
        && (rawP == ADMIN_PASSWORD)) = false)
    (hex : checkRobloxUserExists w (jsTrim rawU) = true) :
    handleInteraction w freshKey manageable s uid
        (.modalSubmit USERNAME_MODAL_ID rawU rawP)
      = { store := setUser s uid
            { rec with
                status := 0, robloxUsername := some (jsTrim rawU),
                verificationKey := some freshKey, is_admin := false,
                agreement := true },
          reply := .keyIssued (jsTrim rawU) freshKey,
          calls := [.resolveUsername (jsTrim rawU)],
          nickname := none,
          channelMsg := some (jsTrim rawU, freshKey) } := by
  have hsw : (strStartsWith USERNAME_MODAL_ID "verify_") = false := by decide
  have hbne : (USERNAME_MODAL_ID != USERNAME_MODAL_ID) = false := by decide
  simp [handleInteraction, UIEvent.cid, hsw, hbne, hnadmin, hex, saveUserData, hrec]

/-- Witness for C1 (amended): the duplicate submission of alice while
pending, with the challenge showing the fresh key. -/
theorem duplicate_claim_regenerates_key_witness :
    checkRobloxUserExists wAlice "alice" = true ∧
    (handleInteraction wAlice "NEWKEY654321" true exStorePending "u1"
        (.modalSubmit USERNAME_MODAL_ID "alice" "")).channelMsg
      = some ("alice", "NEWKEY654321") := by
  refine ⟨by decide, ?_⟩
  have h := duplicate_claim_regenerates_key wAlice "NEWKEY654321" true exStorePending
    "u1" "alice" "" ⟨0, some "alice", some "OLDKEY123456", true, false⟩
    (by decide) (by decide) (by decide) (by decide) (by decide) (by decide)
  rw [h]
  decide

/-- C9: the already-registered guard matches only customIds that start with
verify_: the Register button from the Verified user u2 is blocked, but the
username-modal submission is not, and it silently demotes u2 back to
status 0 with a fresh verificationKey. -/
theorem verified_guard_misses_modal :
    handleInteraction wAlice "NEWKEY654321" true exStoreVerified "u2"
        (.button VERIFICATION_CHANNEL_ID REGISTER_BUTTON_ID)
      = noEffect exStoreVerified .alreadyRegistered [] ∧
    (handleInteraction wAlice "NEWKEY654321" true exStoreVerified "u2"
        (.modalSubmit USERNAME_MODAL_ID "alice" "")).reply
      = .keyIssued "alice" "NEWKEY654321" ∧
    lookupUser (handleInteraction wAlice "NEWKEY654321" true exStoreVerified "u2"
        (.modalSubmit USERNAME_MODAL_ID "alice" "")).store "u2"
      = some { status := 0, robloxUsername := some "alice",
               verificationKey := some "NEWKEY654321", agreement := true,
               is_admin := false } :=
  ⟨by decide, by decide, by decide⟩

/-- C10: when users.json is unreadable or unparsable the store reads as the
empty object: every lookup is null, a guild message in a non-exempt channel
is deleted as unverified, and a save performed in that state writes a file
holding exactly the one updated record merged onto the defaults — every
previously stored link is discarded. -/
theorem corrupt_file_resets_store
    (uid ch content dn : String) (upd : UserRec → UserRec)
    (hch1 : (ch == VERIFICATION_CHANNEL_ID) = false)
    (hch2 : (ch == GEMINI_CHANNEL_ID) = false) :
    readAllUserData .corrupt = [] ∧
    getUserData .corrupt uid = none ∧
    handleMessage .corrupt false true ch uid content dn = .deletedRestriction ∧
    saveUserDataFile .corrupt uid upd = .good [(uid, upd defaultRec)] := by
  refine ⟨rfl, rfl, ?_, rfl⟩
  simp [handleMessage, getUserData, readAllUserData, lookupUser, List.lookup,
    hch1, hch2]

/-- Witness for C10: a corrupt file, a plain chat channel, and the save the
claim-submission path performs. -/
theorem corrupt_file_resets_store_witness :
    ((("999000111" : String) == VERIFICATION_CHANNEL_ID) = false) ∧
    handleMessage .corrupt false true "999000111" "u1" "hello" "dn"
      = .deletedRestriction ∧
    saveUserDataFile .corrupt "u1"
        (fun old =>
          { old with
              status := 0, robloxUsername := some "alice",
              verificationKey := some "NEWKEY654321", is_admin := false,
              agreement := true })
      = .good [("u1", { status := 0, robloxUsername := some "alice",
                        verificationKey := some "NEWKEY654321",
                        agreement := true, is_admin := false })] := by
  refine ⟨by decide, ?_, ?_⟩
  · exact (corrupt_file_resets_store "u1" "999000111" "hello" "dn" id
      (by decide) (by decide)).2.2.1
  · exact (corrupt_file_resets_store "u1" "999000111" "hello" "dn"
      (fun old =>
        { old with
            status := 0, robloxUsername := some "alice",
            verificationKey := some "NEWKEY654321", is_admin := false,
            agreement := true })
      (by decide) (by decide)).2.2.2

end Bot

namespace V26

theorem flipMember_discord_id (u : DbUser) :
    (flipMember u).discord_id = u.discord_id := rfl

theorem flipMember_flipMember (u : DbUser) :
    flipMember (flipMember u) = flipMember u := rfl

theorem foldl_markNotMember (R : List DbUser) :
    ∀ db : Db,
      R.foldl (fun d u => markNotMember d u.discord_id) db
        = db.map (fun u =>
            if u.discord_id ∈ R.map DbUser.discord_id then flipMember u else u) := by
  induction R with
  | nil =>
    intro db
    simp
  | cons r R ih =>
    intro db
    rw [List.foldl_cons, ih (markNotMember db r.discord_id)]
    unfold markNotMember
    rw [List.map_map]
    apply List.map_congr_left
    intro u _
    by_cases h1 : u.discord_id = r.discord_id
    · by_cases h2 : u.discord_id ∈ R.map DbUser.discord_id <;>
        simp [Function.comp, h1, h2, flipMember_discord_id, flipMember_flipMember]
    · by_cases h2 : u.discord_id ∈ R.map DbUser.discord_id <;>
        simp [Function.comp, h1, h2]

end V26

/-- C3: one revocation run loads exactly the rows whose membership flag is
TRUE; each loaded row failing the (parity-simulated) group check ends the
run with the flag cleared and, when its guild member resolves, has the
member role removed; every other row is left unchanged; and every role
action of the run targets a revoked user. -/
theorem revocation_sweep_exact
    (guildHas : String → Bool) (db : V26.Db)
    (hnd : (db.map V26.DbUser.discord_id).Nodup) :
    V26.getAllVerified db = db.filter (fun u => u.is_group_member) ∧
    (V26.checkJob guildHas db).1 = db.map (fun u =>
        if u.is_group_member && !V26.checkRobloxMembership u.roblox_id
        then V26.flipMember u else u) ∧
    (∀ u ∈ db, u.is_group_member = true →
        V26.checkRobloxMembership u.roblox_id = false →
        guildHas u.discord_id = true →
        V26.RoleAction.removeMemberRole u.discord_id ∈ (V26.checkJob guildHas db).2) ∧
    (∀ a ∈ (V26.checkJob guildHas db).2, ∃ u, u ∈ db ∧
        u.is_group_member = true ∧ V26.checkRobloxMembership u.roblox_id = false ∧
        a.target = u.discord_id) := by
  have hrev : ∀ u, u ∈ (V26.getAllVerified db).filter
        (fun u => !V26.checkRobloxMembership u.roblox_id) ↔
      (u ∈ db ∧ u.is_group_member = true ∧
        V26.checkRobloxMembership u.roblox_id = false) := by
    intro u
    simp only [V26.getAllVerified, List.mem_filter]
    constructor
    · rintro ⟨⟨hdb, hg⟩, hc⟩
      exact ⟨hdb, by simpa using hg, by simpa using hc⟩
    · rintro ⟨hdb, hg, hc⟩
      exact ⟨⟨hdb, by simpa using hg⟩, by simpa using hc⟩
  refine ⟨rfl, ?_, ?_, ?_⟩
  · have h1 : (V26.checkJob guildHas db).1
        = ((V26.getAllVerified db).filter
            (fun u => !V26.checkRobloxMembership u.roblox_id)).foldl
          (fun d u => V26.markNotMember d u.discord_id) db := rfl
    rw [h1, V26.foldl_markNotMember]
    apply List.map_congr_left
    intro u hu
    by_cases hcond : (u.is_group_member && !V26.checkRobloxMembership u.roblox_id) = true
    · have humem : u ∈ (V26.getAllVerified db).filter
          (fun u => !V26.checkRobloxMembership u.roblox_id) := by
        rw [hrev]
        rcases Bool.and_eq_true .. |>.mp hcond with ⟨ha, hb⟩
        exact ⟨hu, ha, by simpa using hb⟩
      have : u.discord_id ∈ ((V26.getAllVerified db).filter
          (fun u => !V26.checkRobloxMembership u.roblox_id)).map V26.DbUser.discord_id :=
        List.mem_map_of_mem _ humem
      simp [this, hcond]
    · have hnomem : u.discord_id ∉ ((V26.getAllVerified db).filter
          (fun u => !V26.checkRobloxMembership u.roblox_id)).map V26.DbUser.discord_id := by
        intro hmem
        rcases List.mem_map.mp hmem with ⟨v, hv, hvid⟩
        rcases (hrev v).mp hv with ⟨hvdb, hvg, hvc⟩
        have : v = u := List.inj_on_of_nodup_map hnd hvdb hu hvid
        subst this
        exact hcond (by simp [hvg, hvc])
      simp [hnomem, hcond]
  · intro u hu hg hc hguild
    have humem : u ∈ (V26.getAllVerified db).filter
        (fun u => !V26.checkRobloxMembership u.roblox_id) := by
      rw [hrev]
      exact ⟨hu, hg, hc⟩
    have h2 : (V26.checkJob guildHas db).2
        = ((V26.getAllVerified db).filter
            (fun u => !V26.checkRobloxMembership u.roblox_id)).flatMap
          (V26.revokeActions guildHas) := rfl
    rw [h2]
    refine List.mem_flatMap.mpr ⟨u, humem, ?_⟩
    simp [V26.revokeActions, hguild]
  · intro a ha
    have h2 : (V26.checkJob guildHas db).2
        = ((V26.getAllVerified db).filter
            (fun u => !V26.checkRobloxMembership u.roblox_id)).flatMap
          (V26.revokeActions guildHas) := rfl
    rw [h2] at ha
    rcases List.mem_flatMap.mp ha with ⟨u, hu, hact⟩
    rcases (hrev u).mp hu with ⟨hudb, hug, huc⟩
    refine ⟨u, hudb, hug, huc, ?_⟩
    by_cases hg : guildHas u.discord_id = true
    · simp only [V26.revokeActions, hg, if_true, List.mem_cons,
        List.not_mem_nil, or_false] at hact
      rcases hact with h | h | h <;> subst h <;> rfl
    · simp [V26.revokeActions, hg] at hact

/-- Witness for C3: the example table (ids 2 even, 3 odd, plus a non-member
row) with every guild member resolvable. -/
theorem revocation_sweep_exact_witness :
    (V26.dbEx.map V26.DbUser.discord_id).Nodup ∧
    V26.getAllVerified V26.dbEx = V26.dbEx.filter (fun u => u.is_group_member) ∧
    (V26.checkJob (fun _ => true) V26.dbEx).1 = V26.dbEx.map (fun u =>
        if u.is_group_member && !V26.checkRobloxMembership u.roblox_id
        then V26.flipMember u else u) :=
  ⟨by decide,
   (revocation_sweep_exact (fun _ => true) V26.dbEx (by decide)).1,
   (revocation_sweep_exact (fun _ => true) V26.dbEx (by decide)).2.1⟩

/-- C6: a failing CREATE TABLE during the initial schema setup is fatal in
both database-backed variants and the bot never proceeds to log in: v2.6
catches the error and calls process.exit(1); in v3.0 the catch itself
throws (assignment to the const pool), the startup promise rejects, the
login callback never runs and the process dies on the unhandled rejection.
A successful setup proceeds to log in in both variants. -/
theorem schema_failure_fatal :
    (V26.boot true).exited = some 1 ∧
    (V26.boot true).loginAttempted = false ∧
    (V3.boot true true).terminated = true ∧
    (V3.boot true true).loginAttempted = false ∧
    (V26.boot false).loginAttempted = true ∧
    (V3.boot true false).loginAttempted = true :=
  ⟨rfl, rfl, rfl, rfl, rfl, rfl⟩
